import Mathlib

/-! Shallow embedding of `chromemanager/chromemanager.go`.

The manager is a record of configuration and session fields.  Every method
is a function from the manager (and the outcomes of the external calls it
makes) to the updated manager, its return value and the trace of external
effects it issued, in program order.

External collaborators (the Go standard library, gopsutil, playwright-go and
the operating system) are not part of the repository.  Their observable
answers are the fields of `World`; the methods are total functions of them.
-/

namespace ChromeManager

/-! ## Handles and external world -/

/-- Kind of a filesystem entry reported by a successful `os.Stat`. -/
inductive FileKind where
  | dir
  | regular
  deriving DecidableEq, Repr

/-- Page handle of the attach client (`playwright.Page`). -/
abbrev Page := Nat

/-- A browsing context, observed through `Pages()`. -/
structure Context where
  pages : List Page
  deriving DecidableEq, Repr

/-- Browser handle of the attach client (`playwright.Browser`), observed
through `Contexts()`. -/
structure Browser where
  id : Nat
  contexts : List Context
  deriving DecidableEq, Repr

/-- Started command (`*exec.Cmd`): executable, arguments and `Process.Pid`. -/
structure Cmd where
  path : String
  args : List String
  pid : Int
  deriving DecidableEq, Repr

/-- One row of the operating system's process table. -/
structure Proc where
  pid : Int
  ppid : Int
  deriving DecidableEq, Repr

/-- External effects, in the order the program issues them. -/
inductive Event where
  | print (msg : String)
  | mkdirAll (path : String)
  | dial (addr : String)
  | connClose (addr : String)
  | start (path : String) (args : List String)
  | sleep (seconds : Nat)
  | wait (pid : Int)
  | playwrightRun
  | connectOverCDP (endpoint : String)
  | newPage
  | goto (page : Page) (url : String) (timeout : Int)
  | waitForLoadState (page : Page) (timeout : Int)
  | pageClose (page : Page)
  | browserClose (id : Nat)
  | playwrightStop (id : Nat)
  | kill (pid : Int)
  deriving DecidableEq, Repr

/-- Answers of the external collaborators.

* `stat p` is `none` when `os.Stat p` returns an error, else the entry kind;
* `pathJoin`, `pathBase` are `filepath.Join`, `filepath.Base` of the host;
* `toLower` is `strings.ToLower`;
* `goos`, `home`, `getenv` are `runtime.GOOS`, `os.UserHomeDir`, `os.Getenv`;
* `dialOK addr` is true when `net.DialTimeout` returned a connection;
* `startCmd path args` is the result of `cmd.Start`: the pid or an error;
* `procs` is the process table gopsutil reads during teardown;
* `playwrightRun`, `connectOverCDP`, `newPage`, `goto` are the results of
  the attach client calls. -/
structure World where
  stat : String → Option FileKind
  pathJoin : String → String → String
  pathBase : String → String
  toLower : String → String
  goos : String
  home : String
  getenv : String → String
  dialOK : String → Bool
  startCmd : String → List String → Except String Int
  procs : List Proc
  playwrightRun : Except String Nat
  connectOverCDP : String → Except String Browser
  newPage : Except String Page
  goto : Page → String → Int → Except String Unit

end ChromeManager

/-- The manager: `type ChromeManager struct`. -/
structure ChromeManager where
  BaseProfileDir : String
  BrowserPath : String
  DebugPort : Int
  browserProcess : Option ChromeManager.Cmd
  playwrightInst : Option Nat
  browser : Option ChromeManager.Browser
  page : Option ChromeManager.Page
  processPID : Int
  deriving DecidableEq, Repr

namespace ChromeManager

/-- Value returned by a method together with the manager after the call and
the effects issued during it. -/
structure Outcome (α : Type) where
  cm : ChromeManager
  result : α
  trace : List Event

/-! ## Formatting and string helpers -/

/-- Rendering of `%d`. -/
def fmtInt (n : Int) : String := toString n

/-- Conversion `int32(pid)`: wraps modulo `2^32` into the signed range. -/
def int32 (x : Int) : Int := (x + 2147483648) % 4294967296 - 2147483648

/-- Go's `unicode.IsSpace`. -/
def isSpace (c : Char) : Bool :=
  let n := c.toNat
  n == 0x09 || n == 0x0A || n == 0x0B || n == 0x0C || n == 0x0D || n == 0x20 ||
  n == 0x85 || n == 0xA0 || n == 0x1680 || (0x2000 ≤ n && n ≤ 0x200A) ||
  n == 0x2028 || n == 0x2029 || n == 0x202F || n == 0x205F || n == 0x3000

/-- Removes the leading and trailing characters satisfying `p`. -/
def trimChars (p : Char → Bool) (cs : List Char) : List Char :=
  ((cs.dropWhile p).reverse.dropWhile p).reverse

/-- Go's `strings.TrimSpace`. -/
def TrimSpace (s : String) : String := String.mk (trimChars isSpace s.data)

/-- Go's `strings.Trim(s, cutset)` for a one-character cutset. -/
def Trim (s : String) (c : Char) : String := String.mk (trimChars (fun x => x == c) s.data)

/-- Go's `strings.HasSuffix`. -/
def HasSuffix (s suffix : String) : Bool := suffix.data.isSuffixOf s.data

/-! ## Teardown -/

/-- gopsutil `Process.Children`: the processes whose parent is `pid`. -/
def children (w : World) (pid : Int) : List Int :=
  (w.procs.filter (fun q => q.ppid == pid)).map Proc.pid

/-- Method `killChildProcesses` (source lines 181-194). -/
def killChildProcesses (w : World) (pid : Int) : List Event :=
  if w.procs.any (fun q => q.pid == int32 pid) then
    (children w (int32 pid)).flatMap
        (fun c => [Event.kill c, Event.print ("Killed child process: " ++ fmtInt c ++ "\n")])
      ++ [Event.kill (int32 pid), Event.print ("Killed parent process: " ++ fmtInt pid ++ "\n")]
  else
    [Event.print ("Process " ++ fmtInt pid ++ " no longer exists\n")]

/-- First block of `CloseBrowser`: the page. -/
def closePageStep (cm : ChromeManager) : ChromeManager × List Event :=
  match cm.page with
  | some p => ({ cm with page := none }, [Event.pageClose p, Event.print "Closed page\n"])
  | none => (cm, [])

/-- Second block of `CloseBrowser`: the attached browser. -/
def closeBrowserStep (cm : ChromeManager) : ChromeManager × List Event :=
  match cm.browser with
  | some b =>
    ({ cm with browser := none },
      [Event.browserClose b.id, Event.print "Closed Playwright browser instance\n"])
  | none => (cm, [])

/-- Third block of `CloseBrowser`: the attach client. -/
def stopPlaywrightStep (cm : ChromeManager) : ChromeManager × List Event :=
  match cm.playwrightInst with
  | some i =>
    ({ cm with playwrightInst := none },
      [Event.playwrightStop i, Event.print "Stopped Playwright instance\n"])
  | none => (cm, [])

/-- Fourth block of `CloseBrowser`: the process and its children. -/
def killProcessStep (w : World) (cm : ChromeManager) : ChromeManager × List Event :=
  if cm.browserProcess.isSome && decide (cm.processPID > 0) then
    ({ cm with browserProcess := none, processPID := 0 }, killChildProcesses w cm.processPID)
  else (cm, [])

/-- Method `CloseBrowser` (source lines 320-342). -/
def CloseBrowser (w : World) (cm : ChromeManager) : ChromeManager × List Event :=
  let s1 := closePageStep cm
  let s2 := closeBrowserStep s1.1
  let s3 := stopPlaywrightStep s2.1
  let s4 := killProcessStep w s3.1
  (s4.1, s1.2 ++ s2.2 ++ s3.2 ++ s4.2 ++ [Event.print "Browser closed.\n"])

/-! ## Profiles and the port probe -/

/-- Method `GetProfilePath` (source lines 197-199). -/
def GetProfilePath (w : World) (cm : ChromeManager) (name : String) : String :=
  w.pathJoin cm.BaseProfileDir name

/-- Method `ProfileExists` (source lines 202-205): `os.Stat` returned no error. -/
def ProfileExists (w : World) (cm : ChromeManager) (name : String) : Bool :=
  (w.stat (GetProfilePath w cm name)).isSome

/-- Method `isPortOpen` (source lines 171-178): true when the dial fails. -/
def isPortOpen (w : World) (port : Int) : Bool × List Event :=
  let addr := "127.0.0.1:" ++ fmtInt port
  if w.dialOK addr then (false, [Event.dial addr, Event.connClose addr])
  else (true, [Event.dial addr])

/-- Error text of the port check shared by `SetupProfile` and `ConnectToBrowser`. -/
def portInUseMsg (port : Int) : String :=
  "Port " ++ fmtInt port ++ " is in use. Choose another port."

/-- Error text of the profile check of `ConnectToBrowser`. -/
def profileMissingMsg (profileName : String) : String :=
  "Profile \x27" ++ profileName ++ "\x27 does not exist. Create it first."

/-! ## SetupProfile -/

/-- The slice `args` built by `SetupProfile` (source lines 219-231). -/
def setupProfileArgs (w : World) (cm : ChromeManager) (profileName url : String)
    (headless : Bool) : List String :=
  let args := [cm.BrowserPath,
    "--remote-debugging-port=" ++ fmtInt cm.DebugPort,
    "--user-data-dir=" ++ GetProfilePath w cm profileName,
    "--no-first-run",
    "--no-default-browser-check"]
  let args := if url ≠ "" then args ++ [url] else args
  let args := if headless then args ++ ["--headless=new"] else args
  args

/-- Method `SetupProfile` (source lines 208-247); the result is the returned
error, `none` for `nil`. -/
def SetupProfile (w : World) (cm : ChromeManager) (profileName url waitMessage : String)
    (headless : Bool) : Outcome (Option String) :=
  let waitMessage :=
    if waitMessage = "" then "Perform manual actions, then close the browser to save."
    else waitMessage
  let userDataDir := GetProfilePath w cm profileName
  let probe := isPortOpen w cm.DebugPort
  let t0 := [Event.mkdirAll userDataDir] ++ probe.2
  if !probe.1 then
    ⟨cm, some (portInUseMsg cm.DebugPort), t0⟩
  else
    let args := setupProfileArgs w cm profileName url headless
    let t1 := t0 ++ [Event.print ("Starting browser for profile \x27" ++ profileName ++ "\x27\n"),
      Event.print (waitMessage ++ "\n"), Event.start (args.headD "") args.tail]
    match w.startCmd (args.headD "") args.tail with
    | .error e => ⟨cm, some e, t1⟩
    | .ok pid =>
      let cm1 := { cm with
        browserProcess := some ⟨args.headD "", args.tail, pid⟩, processPID := pid }
      let c := CloseBrowser w cm1
      ⟨c.1, none, t1 ++ [Event.wait pid] ++ c.2
        ++ [Event.print ("Profile \x27" ++ profileName ++ "\x27 saved.\n")]⟩

/-! ## ConnectToBrowser -/

/-- The slice `args` built by `ConnectToBrowser` (source lines 259-268). -/
def connectArgs (w : World) (cm : ChromeManager) (profileName : String)
    (headless : Bool) : List String :=
  let args := [cm.BrowserPath,
    "--remote-debugging-port=" ++ fmtInt cm.DebugPort,
    "--user-data-dir=" ++ GetProfilePath w cm profileName,
    "--no-first-run",
    "--no-default-browser-check"]
  if headless then args ++ ["--headless=new"] else args

/-- The page picked by the guard
`len(contexts) > 0 && len(contexts[0].Pages()) > 0` (source line 298). -/
def firstContextPage (b : Browser) : Option Page :=
  match b.contexts with
  | [] => none
  | c :: _ => c.pages.head?

/-- Tail of `ConnectToBrowser` once `cm.page` is set (source lines 309-316). -/
def connectNavigate (w : World) (cm : ChromeManager) (page : Page) (url : String)
    (timeout : Int) : Outcome (Except String Page) :=
  if url ≠ "" then
    match w.goto page url timeout with
    | .error e => ⟨cm, .error e, [Event.goto page url timeout]⟩
    | .ok _ => ⟨cm, .ok page, [Event.goto page url timeout, Event.waitForLoadState page timeout]⟩
  else ⟨cm, .ok page, []⟩

/-- Page resolution of `ConnectToBrowser` once `cm.browser` is set
(source lines 296-307), followed by the navigation. -/
def connectResolvePage (w : World) (cm : ChromeManager) (browser : Browser) (url : String)
    (timeout : Int) : Outcome (Except String Page) :=
  match firstContextPage browser with
  | some page => connectNavigate w { cm with page := some page } page url timeout
  | none =>
    match w.newPage with
    | .error e =>
      let c := CloseBrowser w cm
      ⟨c.1, .error e, [Event.newPage] ++ c.2⟩
    | .ok page =>
      let r := connectNavigate w { cm with page := some page } page url timeout
      ⟨r.cm, r.result, [Event.newPage] ++ r.trace⟩

/-- Attach phase of `ConnectToBrowser` once the process is recorded
(source lines 282-294), followed by page resolution. -/
def connectAttach (w : World) (cm : ChromeManager) (url : String)
    (timeout : Int) : Outcome (Except String Page) :=
  match w.playwrightRun with
  | .error e =>
    let c := CloseBrowser w cm
    ⟨c.1, .error e, [Event.playwrightRun] ++ c.2⟩
  | .ok pw =>
    let cm2 := { cm with playwrightInst := some pw }
    let endpoint := "http://127.0.0.1:" ++ fmtInt cm.DebugPort
    match w.connectOverCDP endpoint with
    | .error e =>
      let c := CloseBrowser w cm2
      ⟨c.1, .error e, [Event.playwrightRun, Event.connectOverCDP endpoint] ++ c.2⟩
    | .ok browser =>
      let r := connectResolvePage w { cm2 with browser := some browser } browser url timeout
      ⟨r.cm, r.result, [Event.playwrightRun, Event.connectOverCDP endpoint] ++ r.trace⟩

/-- Method `ConnectToBrowser` (source lines 250-317). -/
def ConnectToBrowser (w : World) (cm : ChromeManager) (profileName url : String)
    (headless : Bool) (timeout : Int) : Outcome (Except String Page) :=
  if !ProfileExists w cm profileName then
    ⟨cm, .error (profileMissingMsg profileName), []⟩
  else
    let probe := isPortOpen w cm.DebugPort
    if !probe.1 then
      ⟨cm, .error (portInUseMsg cm.DebugPort), probe.2⟩
    else
      let args := connectArgs w cm profileName headless
      match w.startCmd (args.headD "") args.tail with
      | .error e => ⟨cm, .error e, probe.2 ++ [Event.start (args.headD "") args.tail]⟩
      | .ok pid =>
        let cm1 := { cm with
          browserProcess := some ⟨args.headD "", args.tail, pid⟩, processPID := pid }
        let r := connectAttach w cm1 url timeout
        ⟨r.cm, r.result, probe.2 ++ [Event.start (args.headD "") args.tail, Event.sleep 3,
          Event.print ("Browser started for profile \x27" ++ profileName ++ "\x27 (PID: "
            ++ fmtInt pid ++ ").\n")] ++ r.trace⟩

/-! ## findBrowserPath -/

/-- The candidate list `paths` of `findBrowserPath` (source lines 63-107). -/
def candidatePaths (w : World) : List String :=
  if w.goos = "darwin" then
    ["/Applications/Brave Browser.app/Contents/MacOS/Brave Browser",
     w.pathJoin w.home "Applications/Brave Browser.app/Contents/MacOS/Brave Browser",
     "/Applications/Microsoft Edge.app/Contents/MacOS/Microsoft Edge",
     w.pathJoin w.home "Applications/Microsoft Edge.app/Contents/MacOS/Microsoft Edge",
     "/Applications/Google Chrome.app/Contents/MacOS/Google Chrome",
     w.pathJoin w.home "Applications/Google Chrome.app/Contents/MacOS/Google Chrome",
     "/Applications/Chromium.app/Contents/MacOS/Chromium",
     w.pathJoin w.home "Applications/Chromium.app/Contents/MacOS/Chromium"]
  else if w.goos = "windows" then
    ["C:\\Program Files\\BraveSoftware\\Brave-Browser\\Application\\brave.exe",
     "C:\\Program Files (x86)\\BraveSoftware\\Brave-Browser\\Application\\brave.exe",
     w.pathJoin (w.getenv "LOCALAPPDATA") "BraveSoftware\\Brave-Browser\\Application\\brave.exe",
     "C:\\Program Files\\Microsoft\\Edge\\Application\\msedge.exe",
     "C:\\Program Files (x86)\\Microsoft\\Edge\\Application\\msedge.exe",
     w.pathJoin (w.getenv "LOCALAPPDATA") "Microsoft\\Edge\\Application\\msedge.exe",
     "C:\\Program Files\\Google\\Chrome\\Application\\chrome.exe",
     "C:\\Program Files (x86)\\Google\\Chrome\\Application\\chrome.exe",
     w.pathJoin (w.getenv "LOCALAPPDATA") "Google\\Chrome\\Application\\chrome.exe",
     "C:\\Program Files\\Chromium\\Application\\chromium.exe",
     "C:\\Program Files (x86)\\Chromium\\Application\\chromium.exe",
     w.pathJoin (w.getenv "LOCALAPPDATA") "Chromium\\Application\\chromium.exe"]
  else
    ["/usr/bin/brave-browser", "/usr/bin/brave",
     "/usr/local/bin/brave-browser", "/usr/local/bin/brave",
     w.pathJoin w.home ".local/bin/brave-browser",
     "/usr/bin/microsoft-edge", "/usr/bin/microsoft-edge-stable",
     "/usr/local/bin/microsoft-edge",
     "/usr/bin/google-chrome", "/usr/bin/google-chrome-stable",
     "/usr/local/bin/google-chrome",
     "/usr/bin/chromium", "/usr/bin/chromium-browser",
     "/usr/local/bin/chromium",
     w.pathJoin w.home ".local/bin/chromium"]

/-- The scan `for _, p := range paths` (source lines 110-117): the first
candidate that `os.Stat` accepts, with the lines printed on the way. -/
def scanCandidates (w : World) : List String → Option String × List Event
  | [] => (none, [])
  | p :: ps =>
    if (w.stat p).isSome then
      (some p, [Event.print (" - " ++ p ++ ": Found\n"),
        Event.print ("Selected browser at: " ++ p ++ "\n")])
    else
      let r := scanCandidates w ps
      (r.1, Event.print (" - " ++ p ++ ": Not found\n") :: r.2)

/-- The example line printed before the prompt (source lines 119-126). -/
def exampleHint (w : World) : List Event :=
  [Event.print "Browser executable not found. Please input your browser path.\n",
   if w.goos = "darwin" then
     Event.print "Example: /Applications/Brave Browser.app/Contents/MacOS/Brave Browser\n"
   else if w.goos = "windows" then
     Event.print
       "Example: C:\\Program Files\\BraveSoftware\\Brave-Browser\\Application\\brave.exe\n"
   else Event.print "Example: /usr/bin/brave-browser\n"]

/-- The suffix test of the prompt loop (source lines 149-152). -/
def brandSuffixOK (base : String) : Bool :=
  HasSuffix base "brave" || HasSuffix base "brave.exe" ||
  HasSuffix base "msedge" || HasSuffix base "msedge.exe" ||
  HasSuffix base "chrome" || HasSuffix base "chrome.exe" ||
  HasSuffix base "chromium" || HasSuffix base "chromium.exe"

/-- Function `promptYesNo` (source lines 160-168) on the line its scanner
reads, `none` when `Scan` fails. -/
def promptYesNo (w : World) (msg : String) (scanned : Option String) : Bool × List Event :=
  match scanned with
  | some text =>
    (w.toLower (TrimSpace text) == "y" || w.toLower (TrimSpace text) == "yes",
      [Event.print msg])
  | none => (false, [Event.print msg])

/-- Adds the effects `ev` in front of those of `r`. -/
def after {α : Type} (ev : List Event) (r : α × List Event) : α × List Event :=
  (r.1, ev ++ r.2)

/-- The prompt loop of `findBrowserPath` (source lines 128-157) over the
lines still to be read from standard input, one line per `Scan`. -/
def promptLoop (w : World) : List String → Except String String × List Event
  | [] => (.error "input error", [Event.print "Enter browser path: "])
  | line :: rest =>
    let userPath := Trim (TrimSpace line) (Char.ofNat 34)
    if userPath = "" then
      after [Event.print "Enter browser path: ",
        Event.print "Path cannot be empty. Please try again.\n"] (promptLoop w rest)
    else if (w.stat userPath).isNone then
      match rest with
      | [] =>
        (.error "browser path not found. Exiting...",
          [Event.print "Enter browser path: ",
           Event.print ("File not found at: " ++ userPath ++ "\n")]
          ++ (promptYesNo w "Would you like to try again? (y/n): " none).2)
      | answer :: rest2 =>
        let yn := promptYesNo w "Would you like to try again? (y/n): " (some answer)
        if yn.1 then
          after ([Event.print "Enter browser path: ",
            Event.print ("File not found at: " ++ userPath ++ "\n")] ++ yn.2) (promptLoop w rest2)
        else
          (.error "browser path not found. Exiting...",
            [Event.print "Enter browser path: ",
             Event.print ("File not found at: " ++ userPath ++ "\n")] ++ yn.2)
    else if brandSuffixOK (w.toLower (w.pathBase userPath)) then
      (.ok userPath, [Event.print "Enter browser path: ",
        Event.print ("Browser path verified: " ++ userPath ++ "\n")])
    else
      after [Event.print "Enter browser path: ",
        Event.print
          "Path should point to Brave, Edge, Chrome, or Chromium executable. Please try again.\n"]
        (promptLoop w rest)

/-- Function `findBrowserPath` (source lines 62-158) on the lines of
standard input. -/
def findBrowserPath (w : World) (input : List String) : Except String String × List Event :=
  let scan := scanCandidates w (candidatePaths w)
  match scan.1 with
  | some p => (.ok p, [Event.print "Checking browser paths:\n"] ++ scan.2)
  | none =>
    after ([Event.print "Checking browser paths:\n"] ++ scan.2 ++ exampleHint w)
      (promptLoop w input)

/-! ## Specification vocabulary -/

/-- Release actions: closing a page or a browser, stopping the attach client,
terminating a process. -/
def isRelease : Event → Bool
  | .pageClose _ => true
  | .browserClose _ => true
  | .playwrightStop _ => true
  | .kill _ => true
  | _ => false

/-- The release actions of a trace, in order. -/
def resourceActions (t : List Event) : List Event := t.filter isRelease

/-- Dial events of a trace. -/
def isDial : Event → Bool
  | .dial _ => true
  | _ => false

/-- Spawn events of a trace. -/
def isStart : Event → Bool
  | .start _ _ => true
  | _ => false

/-- Position of a release action in reverse acquisition order: page, attached
browser, attach client, process. -/
def releaseRank : Event → Nat
  | .pageClose _ => 0
  | .browserClose _ => 1
  | .playwrightStop _ => 2
  | _ => 3

/-- Process `d` is below `a` in the process tree of `w`: reachable through one
or more parent-to-child steps. -/
def Descendant (w : World) (a d : Int) : Prop :=
  Relation.TransGen (fun x y => y ∈ children w x) a d

/-- The first open page in the wording of the specification: the first page of
the first context, at any position, that has a page. -/
def firstOpenPage (contexts : List Context) : Option Page :=
  (contexts.find? (fun c => !c.pages.isEmpty)).bind (fun c => c.pages.head?)

/-- The base name ends in a recognised brand name, optionally followed by
`.exe`. -/
def EndsInBrand (base : String) : Prop :=
  ∃ n ∈ ["brave", "msedge", "chrome", "chromium"],
    HasSuffix base n = true ∨ HasSuffix base (n ++ ".exe") = true

/-! ## Sample worlds -/

/-- Unix `filepath.Base` on a character list. -/
def unixBase (s : String) : String :=
  if s = "" then "."
  else
    let stripped := (s.data.reverse.dropWhile (fun c => c == (Char.ofNat 47)))
    let last := (stripped.takeWhile (fun c => c != (Char.ofNat 47))).reverse
    if last = [] then "/" else String.mk last

/-- A Linux host: profile `work` is a directory, `notes` is a regular file,
`/opt/chrome` and `/opt/firefox` exist, nothing listens on the debug port,
every external call succeeds, and the process table holds the browser `4242`
with child `4300` and grandchild `4400`. -/
def sampleWorld : World where
  stat := fun p =>
    if p = "/profiles/work" then some FileKind.dir
    else if p = "/profiles/notes" then some FileKind.regular
    else if p = "/opt/chrome" then some FileKind.regular
    else if p = "/opt/firefox" then some FileKind.regular
    else none
  pathJoin := fun a b => a ++ "/" ++ b
  pathBase := unixBase
  toLower := fun s => String.mk (s.data.map Char.toLower)
  goos := "linux"
  home := "/home/user"
  getenv := fun _ => ""
  dialOK := fun _ => false
  startCmd := fun _ _ => .ok 4242
  procs := [⟨4242, 1⟩, ⟨4300, 4242⟩, ⟨4400, 4300⟩]
  playwrightRun := .ok 1
  connectOverCDP := fun _ => .ok ⟨1, [⟨[]⟩, ⟨[7]⟩]⟩
  newPage := .ok 99
  goto := fun _ _ _ => .error "net::ERR_NAME_NOT_RESOLVED"

/-- The sample host with a listener on every port. -/
def busyWorld : World := { sampleWorld with dialOK := fun _ => true }

/-- The sample host whose attached browser has two pages in its first
context, with a navigation that succeeds. -/
def reuseWorld : World :=
  { sampleWorld with
    connectOverCDP := fun _ => .ok ⟨1, [⟨[5, 6]⟩, ⟨[7]⟩]⟩
    goto := fun _ _ _ => .ok () }

/-- A manager with no session on the sample host. -/
def sampleManager : ChromeManager :=
  ⟨"/profiles", "/opt/chrome", 9222, none, none, none, none, 0⟩

/-! ## Lemmas on teardown -/

theorem resourceActions_append (a b : List Event) :
    resourceActions (a ++ b) = resourceActions a ++ resourceActions b := by
  simp [resourceActions]

theorem resourceActions_killLoop (cs : List Int) :
    resourceActions (cs.flatMap
      (fun c => [Event.kill c, Event.print ("Killed child process: " ++ fmtInt c ++ "\n")]))
      = cs.map Event.kill := by
  induction cs with
  | nil => rfl
  | cons c cs ih =>
    simp only [List.flatMap_cons, resourceActions_append, ih, List.map_cons]
    rfl

theorem resourceActions_kill (w : World) (pid : Int) :
    resourceActions (killChildProcesses w pid) =
      if w.procs.any (fun q => q.pid == int32 pid) then
        (children w (int32 pid)).map Event.kill ++ [Event.kill (int32 pid)]
      else [] := by
  unfold killChildProcesses
  split
  · rw [resourceActions_append, resourceActions_killLoop]; rfl
  · rfl

theorem closeBrowser_second (w w' : World) (cm : ChromeManager) :
    CloseBrowser w' (CloseBrowser w cm).1
      = ((CloseBrowser w cm).1, [Event.print "Browser closed.\n"]) := by
  obtain ⟨b, x, d, proc, pw, br, pg, pid⟩ := cm
  cases pg <;> cases br <;> cases pw <;> cases proc <;>
    by_cases hp : pid > 0 <;>
    simp [CloseBrowser, closePageStep, closeBrowserStep, stopPlaywrightStep, killProcessStep, hp]

theorem resourceActions_close (w : World) (cm : ChromeManager) :
    resourceActions (CloseBrowser w cm).2 =
      cm.page.toList.map Event.pageClose
      ++ cm.browser.toList.map (fun b => Event.browserClose b.id)
      ++ cm.playwrightInst.toList.map Event.playwrightStop
      ++ (if cm.browserProcess.isSome && decide (cm.processPID > 0) then
            resourceActions (killChildProcesses w cm.processPID) else []) := by
  obtain ⟨b, x, d, proc, pw, br, pg, pid⟩ := cm
  cases pg <;> cases br <;> cases pw <;> cases proc <;>
    by_cases hp : pid > 0 <;>
    simp [CloseBrowser, closePageStep, closeBrowserStep, stopPlaywrightStep, killProcessStep, hp,
      resourceActions_append] <;>
    simp [resourceActions, isRelease]

theorem releaseRank_kill (w : World) (pid : Int) :
    ∀ e ∈ resourceActions (killChildProcesses w pid), releaseRank e = 3 := by
  intro e he
  rw [resourceActions_kill] at he
  split at he
  · simp only [List.mem_append, List.mem_map, List.mem_singleton] at he
    rcases he with ⟨c, _, rfl⟩ | rfl <;> rfl
  · simp at he

/-! ## Claims on teardown -/

/-- C2: `CloseBrowser` on a manager with no page, browser, attach client or
process handle issues no release action and leaves the manager as it was;
and after any `CloseBrowser`, a second `CloseBrowser` changes nothing and
issues no release action, so two calls release what one call releases. -/
theorem CloseBrowser_idempotent (w w' : World) (cm : ChromeManager)
    (base path : String) (port pid : Int) :
    CloseBrowser w ⟨base, path, port, none, none, none, none, pid⟩
        = (⟨base, path, port, none, none, none, none, pid⟩, [Event.print "Browser closed.\n"])
    ∧ resourceActions (CloseBrowser w ⟨base, path, port, none, none, none, none, pid⟩).2 = []
    ∧ (CloseBrowser w' (CloseBrowser w cm).1).1 = (CloseBrowser w cm).1
    ∧ resourceActions (CloseBrowser w' (CloseBrowser w cm).1).2 = []
    ∧ resourceActions ((CloseBrowser w cm).2 ++ (CloseBrowser w' (CloseBrowser w cm).1).2)
        = resourceActions (CloseBrowser w cm).2 := by
  have h2 := closeBrowser_second w w' cm
  refine ⟨?_, ?_, ?_, ?_, ?_⟩
  · simp [CloseBrowser, closePageStep, closeBrowserStep, stopPlaywrightStep, killProcessStep]
  · simp [CloseBrowser, closePageStep, closeBrowserStep, stopPlaywrightStep, killProcessStep,
      resourceActions, isRelease]
  · rw [h2]
  · rw [h2]; rfl
  · rw [resourceActions_append, h2]
    simp [resourceActions, isRelease]

/-- C3: the release actions of `CloseBrowser` are the page close (when a page
is held), then the browser close and the attach-client stop (when held), then
the terminations of `killChildProcesses` (when a process handle with a
positive PID is held); no action comes after one of a later rank. -/
theorem CloseBrowser_reverse_order (w : World) (cm : ChromeManager) :
    resourceActions (CloseBrowser w cm).2 =
      cm.page.toList.map Event.pageClose
      ++ cm.browser.toList.map (fun b => Event.browserClose b.id)
      ++ cm.playwrightInst.toList.map Event.playwrightStop
      ++ (if cm.browserProcess.isSome && decide (cm.processPID > 0) then
            resourceActions (killChildProcesses w cm.processPID) else [])
    ∧ (resourceActions (CloseBrowser w cm).2).Pairwise
        (fun a b => releaseRank a ≤ releaseRank b) := by
  refine ⟨resourceActions_close w cm, ?_⟩
  rw [resourceActions_close]
  have hk : ∀ e ∈ (if cm.browserProcess.isSome && decide (cm.processPID > 0) then
      resourceActions (killChildProcesses w cm.processPID) else []), releaseRank e = 3 := by
    intro e he
    split at he
    · exact releaseRank_kill w _ e he
    · simp at he
  have hkp : (if cm.browserProcess.isSome && decide (cm.processPID > 0) then
      resourceActions (killChildProcesses w cm.processPID) else []).Pairwise
        (fun a b => releaseRank a ≤ releaseRank b) := by
    apply List.pairwise_of_forall_mem_list
    intro a ha b hb
    rw [hk a ha, hk b hb]
  generalize (if cm.browserProcess.isSome && decide (cm.processPID > 0) then
      resourceActions (killChildProcesses w cm.processPID) else []) = ks at hk hkp
  have r0 : ∀ p, releaseRank (Event.pageClose p) = 0 := fun _ => rfl
  have r1 : ∀ i, releaseRank (Event.browserClose i) = 1 := fun _ => rfl
  have r2 : ∀ i, releaseRank (Event.playwrightStop i) = 2 := fun _ => rfl
  cases hpg : cm.page <;> cases hbr : cm.browser <;> cases hpw : cm.playwrightInst <;>
    simp +contextual [List.pairwise_append, hkp, r0, r1, r2, hk]

theorem int32_of_range (x : Int) (lo : -2147483648 ≤ x) (hi : x < 2147483648) :
    int32 x = x := by
  unfold int32
  rw [Int.emod_eq_of_lt (by omega) (by omega)]
  omega

theorem mem_kill_iff (t : List Event) (d : Int) :
    Event.kill d ∈ t ↔ Event.kill d ∈ resourceActions t := by
  simp [resourceActions, isRelease]

/-- C6 (counterexample): in the tree 4242 → 4300 → 4400 the grandchild 4400
is a descendant of the live browser process 4242, yet `killChildProcesses`
terminates only 4300 and 4242. -/
theorem killChildProcesses_misses_grandchild :
    sampleWorld.procs.any (fun q => q.pid == 4242) = true
    ∧ Descendant sampleWorld 4242 4400
    ∧ resourceActions (killChildProcesses sampleWorld 4242)
        = [Event.kill 4300, Event.kill 4242]
    ∧ Event.kill 4400 ∉ killChildProcesses sampleWorld 4242 := by
  have hr : resourceActions (killChildProcesses sampleWorld 4242)
      = [Event.kill 4300, Event.kill 4242] := by
    rw [resourceActions_kill]; decide
  refine ⟨by decide, ?_, hr, ?_⟩
  · have h1 : (4300 : Int) ∈ children sampleWorld 4242 := by decide
    have h2 : (4400 : Int) ∈ children sampleWorld 4300 := by decide
    exact Relation.TransGen.tail (Relation.TransGen.single h1) h2
  · rw [mem_kill_iff, hr]; decide

/-- C6 (amended): when the process `int32 pid` is in the process table,
`killChildProcesses pid` terminates each of its direct children, in the order
enumerated, and then the process itself, and nothing else; when it is not in
the table nothing is terminated. -/
theorem killChildProcesses_direct_children (w : World) (pid : Int) :
    resourceActions (killChildProcesses w pid) =
      (if w.procs.any (fun q => q.pid == int32 pid) then
        (children w (int32 pid)).map Event.kill ++ [Event.kill (int32 pid)]
      else [])
    ∧ ∀ d, Event.kill d ∈ killChildProcesses w pid ↔
        (w.procs.any (fun q => q.pid == int32 pid) = true
          ∧ (d ∈ children w (int32 pid) ∨ d = int32 pid)) := by
  refine ⟨resourceActions_kill w pid, fun d => ?_⟩
  rw [mem_kill_iff, resourceActions_kill]
  by_cases h : w.procs.any (fun q => q.pid == int32 pid) = true
  · rw [if_pos h]; simp [h]
  · rw [if_neg h]; simp [h]

/-! ## Claims on profiles and the port probe -/

/-- C10 (counterexample): the path of profile `notes` is a regular file, not a
directory, and `ProfileExists` is true for it. -/
theorem ProfileExists_regular_file :
    sampleWorld.stat (GetProfilePath sampleWorld sampleManager "notes") = some FileKind.regular
    ∧ ProfileExists sampleWorld sampleManager "notes" = true := by
  constructor <;> rfl

/-- C10 (amended): `GetProfilePath n` is the path join of `BaseProfileDir` and
`n`; `ProfileExists n` is true exactly when `os.Stat` succeeds on that path,
whether the entry is a directory or a regular file, and false exactly when
`os.Stat` fails. -/
theorem ProfileExists_iff_stat (w : World) (cm : ChromeManager) (n : String) :
    GetProfilePath w cm n = w.pathJoin cm.BaseProfileDir n
    ∧ (ProfileExists w cm n = true ↔
        (w.stat (GetProfilePath w cm n) = some FileKind.dir
          ∨ w.stat (GetProfilePath w cm n) = some FileKind.regular))
    ∧ (ProfileExists w cm n = false ↔ w.stat (GetProfilePath w cm n) = none) := by
  refine ⟨rfl, ?_, ?_⟩
  · unfold ProfileExists
    cases h : w.stat (GetProfilePath w cm n) with
    | none => simp
    | some k => cases k <;> simp
  · unfold ProfileExists
    cases h : w.stat (GetProfilePath w cm n) <;> simp

/-- C4: when `os.Stat` fails on the profile path, `ConnectToBrowser` returns
the profile-missing error, leaves the manager (process handle, PID and session
fields included) as it was and issues no effect at all: no dial, no spawn. -/
theorem ConnectToBrowser_profile_missing (w : World) (cm : ChromeManager)
    (profileName url : String) (headless : Bool) (timeout : Int)
    (h : w.stat (w.pathJoin cm.BaseProfileDir profileName) = none) :
    (ConnectToBrowser w cm profileName url headless timeout).cm = cm
    ∧ (ConnectToBrowser w cm profileName url headless timeout).result
        = .error (profileMissingMsg profileName)
    ∧ (ConnectToBrowser w cm profileName url headless timeout).trace = [] := by
  have hp : ProfileExists w cm profileName = false := by
    simp [ProfileExists, GetProfilePath, h]
  simp [ConnectToBrowser, hp]

/-- C4 (witness): profile `ghost` has no entry on the sample host. -/
theorem ConnectToBrowser_profile_missing_witness :
    sampleWorld.stat (sampleWorld.pathJoin sampleManager.BaseProfileDir "ghost") = none
    ∧ (ConnectToBrowser sampleWorld sampleManager "ghost" "" false 0).cm = sampleManager
    ∧ (ConnectToBrowser sampleWorld sampleManager "ghost" "" false 0).result
        = .error (profileMissingMsg "ghost")
    ∧ (ConnectToBrowser sampleWorld sampleManager "ghost" "" false 0).trace = [] :=
  ⟨rfl, ConnectToBrowser_profile_missing sampleWorld sampleManager "ghost" "" false 0 rfl⟩

/-- C5: when the dial on the debug port succeeds, `SetupProfile` returns the
port-in-use error with the manager unchanged after creating the profile
directory, dialling once and closing the connection; `ConnectToBrowser` on an
existing profile does the same without the directory creation. Neither trace
has a spawn, and each has exactly one dial. -/
theorem port_in_use_rejected (w : World) (cm : ChromeManager)
    (profileName url waitMessage : String) (headless : Bool) (timeout : Int)
    (h : w.dialOK ("127.0.0.1:" ++ fmtInt cm.DebugPort) = true) :
    ((SetupProfile w cm profileName url waitMessage headless).cm = cm
      ∧ (SetupProfile w cm profileName url waitMessage headless).result
          = some (portInUseMsg cm.DebugPort)
      ∧ (SetupProfile w cm profileName url waitMessage headless).trace
          = [Event.mkdirAll (GetProfilePath w cm profileName),
             Event.dial ("127.0.0.1:" ++ fmtInt cm.DebugPort),
             Event.connClose ("127.0.0.1:" ++ fmtInt cm.DebugPort)]
      ∧ ((SetupProfile w cm profileName url waitMessage headless).trace.filter isDial).length = 1
      ∧ (SetupProfile w cm profileName url waitMessage headless).trace.filter isStart = [])
    ∧ (ProfileExists w cm profileName = true →
      (ConnectToBrowser w cm profileName url headless timeout).cm = cm
      ∧ (ConnectToBrowser w cm profileName url headless timeout).result
          = .error (portInUseMsg cm.DebugPort)
      ∧ (ConnectToBrowser w cm profileName url headless timeout).trace
          = [Event.dial ("127.0.0.1:" ++ fmtInt cm.DebugPort),
             Event.connClose ("127.0.0.1:" ++ fmtInt cm.DebugPort)]
      ∧ ((ConnectToBrowser w cm profileName url headless timeout).trace.filter isDial).length = 1
      ∧ (ConnectToBrowser w cm profileName url headless timeout).trace.filter isStart = []) := by
  constructor
  · simp [SetupProfile, isPortOpen, h, isDial, isStart]
  · intro hp
    simp [ConnectToBrowser, isPortOpen, h, hp, isDial, isStart]

/-- C5 (witness): every port of `busyWorld` has a listener and profile `work`
exists. -/
theorem port_in_use_rejected_witness :
    busyWorld.dialOK ("127.0.0.1:" ++ fmtInt sampleManager.DebugPort) = true
    ∧ ProfileExists busyWorld sampleManager "work" = true
    ∧ (SetupProfile busyWorld sampleManager "work" "" "" false).result
        = some (portInUseMsg sampleManager.DebugPort)
    ∧ (ConnectToBrowser busyWorld sampleManager "work" "" false 0).result
        = .error (portInUseMsg sampleManager.DebugPort) :=
  ⟨rfl, rfl,
    (port_in_use_rejected busyWorld sampleManager "work" "" "" false 0 rfl).1.2.1,
    ((port_in_use_rejected busyWorld sampleManager "work" "" "" false 0 rfl).2 rfl).2.1⟩

/-! ## Claims on ConnectToBrowser -/

/-- C1 (failing input): on the sample host the browser is spawned as PID 4242,
the attach succeeds, a new page 99 is created and the navigation to the
supplied URL fails. `ConnectToBrowser` returns that error while the manager
still holds the process handle, the PID, the attach client, the browser and
the page, and no release action was issued: no page close, no stop, no
termination. -/
theorem ConnectToBrowser_goto_failure_leaks :
    (ConnectToBrowser sampleWorld sampleManager "work" "https://example.com" false 30000).result
        = .error "net::ERR_NAME_NOT_RESOLVED"
    ∧ (ConnectToBrowser sampleWorld sampleManager "work" "https://example.com" false
        30000).cm.browserProcess.isSome = true
    ∧ (ConnectToBrowser sampleWorld sampleManager "work" "https://example.com" false
        30000).cm.processPID = 4242
    ∧ (ConnectToBrowser sampleWorld sampleManager "work" "https://example.com" false
        30000).cm.playwrightInst = some 1
    ∧ (ConnectToBrowser sampleWorld sampleManager "work" "https://example.com" false
        30000).cm.browser.isSome = true
    ∧ (ConnectToBrowser sampleWorld sampleManager "work" "https://example.com" false
        30000).cm.page = some 99
    ∧ Event.start "/opt/chrome" ["--remote-debugging-port=9222",
        "--user-data-dir=/profiles/work", "--no-first-run", "--no-default-browser-check"]
        ∈ (ConnectToBrowser sampleWorld sampleManager "work" "https://example.com" false
            30000).trace
    ∧ resourceActions (ConnectToBrowser sampleWorld sampleManager "work" "https://example.com"
        false 30000).trace = [] := by
  refine ⟨rfl, rfl, rfl, rfl, rfl, rfl, ?_, ?_⟩ <;> decide

/-- C7 (counterexample): the attached browser reports an empty first context
and a second context holding page 7. The first open page in the sense of the
specification is 7, yet `ConnectToBrowser` creates a new page and returns it. -/
theorem ConnectToBrowser_ignores_later_context :
    sampleWorld.connectOverCDP "http://127.0.0.1:9222" = .ok ⟨1, [⟨[]⟩, ⟨[7]⟩]⟩
    ∧ firstOpenPage [⟨[]⟩, ⟨[7]⟩] = some 7
    ∧ (ConnectToBrowser sampleWorld sampleManager "work" "" false 30000).result = .ok 99
    ∧ Event.newPage ∈ (ConnectToBrowser sampleWorld sampleManager "work" "" false 30000).trace := by
  refine ⟨rfl, rfl, rfl, ?_⟩
  decide

theorem firstContextPage_eq_some (b : Browser) (p : Page) :
    firstContextPage b = some p ↔ ∃ c cs ps, b.contexts = c :: cs ∧ c.pages = p :: ps := by
  unfold firstContextPage
  cases hc : b.contexts with
  | nil => simp
  | cons c cs =>
    cases hp : c.pages with
    | nil => simp [hp]
    | cons q qs => simp [hp]

theorem CloseBrowser_cleared (w : World) (cm : ChromeManager) (h : cm.processPID > 0)
    (hb : cm.browserProcess.isSome = true) :
    (CloseBrowser w cm).1.browserProcess = none ∧ (CloseBrowser w cm).1.processPID = 0
    ∧ (CloseBrowser w cm).1.playwrightInst = none ∧ (CloseBrowser w cm).1.browser = none
    ∧ (CloseBrowser w cm).1.page = none := by
  obtain ⟨b, x, d, proc, pw, br, pg, pid⟩ := cm
  simp only at h hb
  cases pg <;> cases br <;> cases pw <;> cases proc <;>
    simp_all [CloseBrowser, closePageStep, closeBrowserStep, stopPlaywrightStep, killProcessStep]

/-- Teardown does run on the three failure sites before navigation: when the
spawn succeeded with a positive PID and the attach client fails to start, the
CDP connection fails, or no page can be reused and page creation fails, the
error is returned with every session field cleared. -/
theorem ConnectToBrowser_teardown_before_navigation (w : World) (cm : ChromeManager)
    (profileName url : String) (headless : Bool) (timeout pid : Int) (e : String)
    (hp : ProfileExists w cm profileName = true)
    (hd : w.dialOK ("127.0.0.1:" ++ fmtInt cm.DebugPort) = false)
    (hs : w.startCmd ((connectArgs w cm profileName headless).headD "")
      (connectArgs w cm profileName headless).tail = .ok pid)
    (hpid : pid > 0)
    (hfail : w.playwrightRun = .error e
      ∨ (∃ pw, w.playwrightRun = .ok pw
          ∧ w.connectOverCDP ("http://127.0.0.1:" ++ fmtInt cm.DebugPort) = .error e)
      ∨ (∃ pw b, w.playwrightRun = .ok pw
          ∧ w.connectOverCDP ("http://127.0.0.1:" ++ fmtInt cm.DebugPort) = .ok b
          ∧ firstContextPage b = none ∧ w.newPage = .error e)) :
    (ConnectToBrowser w cm profileName url headless timeout).result = .error e
    ∧ (ConnectToBrowser w cm profileName url headless timeout).cm.browserProcess = none
    ∧ (ConnectToBrowser w cm profileName url headless timeout).cm.processPID = 0
    ∧ (ConnectToBrowser w cm profileName url headless timeout).cm.playwrightInst = none
    ∧ (ConnectToBrowser w cm profileName url headless timeout).cm.browser = none
    ∧ (ConnectToBrowser w cm profileName url headless timeout).cm.page = none := by
  rcases hfail with h1 | ⟨pw, h1, h2⟩ | ⟨pw, b, h1, h2, h3, h4⟩
  · simp only [ConnectToBrowser, hp, isPortOpen, hd, hs, connectAttach, h1]
    simp only [Bool.not_true, Bool.false_eq_true, if_false, true_and]
    exact CloseBrowser_cleared w _ hpid rfl
  · simp only [ConnectToBrowser, hp, isPortOpen, hd, hs, connectAttach, h1, h2]
    simp only [Bool.not_true, Bool.false_eq_true, if_false, true_and]
    exact CloseBrowser_cleared w _ hpid rfl
  · simp only [ConnectToBrowser, hp, isPortOpen, hd, hs, connectAttach, h1, h2,
      connectResolvePage, h3, h4]
    simp only [Bool.not_true, Bool.false_eq_true, if_false, true_and]
    exact CloseBrowser_cleared w _ hpid rfl

/-- C7 (amended): after a successful attach, `ConnectToBrowser` reuses a page
exactly when the first context of the list exists and has a page, and then
the manager holds the first page of that first context, which is returned
unless the navigation fails; in every other case, also when a later context
has pages, a new page is requested. -/
theorem ConnectToBrowser_page_resolution (w : World) (cm : ChromeManager)
    (profileName url : String) (headless : Bool) (timeout pid : Int) (pw : Nat) (b : Browser)
    (hp : ProfileExists w cm profileName = true)
    (hd : w.dialOK ("127.0.0.1:" ++ fmtInt cm.DebugPort) = false)
    (hs : w.startCmd ((connectArgs w cm profileName headless).headD "")
      (connectArgs w cm profileName headless).tail = .ok pid)
    (hpw : w.playwrightRun = .ok pw)
    (hb : w.connectOverCDP ("http://127.0.0.1:" ++ fmtInt cm.DebugPort) = .ok b) :
    (Event.newPage ∈ (ConnectToBrowser w cm profileName url headless timeout).trace
        ↔ ¬ ∃ c cs p ps, b.contexts = c :: cs ∧ c.pages = p :: ps)
    ∧ ∀ c cs p ps, b.contexts = c :: cs → c.pages = p :: ps →
        (ConnectToBrowser w cm profileName url headless timeout).cm.page = some p
        ∧ (url = "" → (ConnectToBrowser w cm profileName url headless timeout).result = .ok p)
        ∧ (∀ u, w.goto p url timeout = .ok u →
            (ConnectToBrowser w cm profileName url headless timeout).result = .ok p)
        ∧ (∀ e, url ≠ "" → w.goto p url timeout = .error e →
            (ConnectToBrowser w cm profileName url headless timeout).result = .error e) := by
  have hnone : firstContextPage b = none ↔ ¬ ∃ c cs p ps, b.contexts = c :: cs ∧ c.pages = p :: ps := by
    constructor
    · rintro h ⟨c, cs, p, ps, h1, h2⟩
      have := (firstContextPage_eq_some b p).2 ⟨c, cs, ps, h1, h2⟩
      rw [h] at this; cases this
    · intro h
      cases hf : firstContextPage b with
      | none => rfl
      | some p =>
        obtain ⟨c, cs, ps, h1, h2⟩ := (firstContextPage_eq_some b p).1 hf
        exact absurd ⟨c, cs, p, ps, h1, h2⟩ h
  constructor
  · rw [← hnone]
    cases hf : firstContextPage b with
    | some p =>
      by_cases hu : url = ""
      · (simp only [ConnectToBrowser, hp, isPortOpen, hd, hs, connectAttach, hpw, hb,
          connectResolvePage, hf, connectNavigate, hu]; simp [hu])
      · cases hg : w.goto p url timeout <;>
          (simp only [ConnectToBrowser, hp, isPortOpen, hd, hs, connectAttach, hpw, hb,
            connectResolvePage, hf, connectNavigate, hu, hg]; simp [hu])
    | none =>
      cases hn : w.newPage <;>
        (simp only [ConnectToBrowser, hp, isPortOpen, hd, hs, connectAttach, hpw, hb,
          connectResolvePage, hf, hn]; simp)
  · intro c cs p ps h1 h2
    have hf : firstContextPage b = some p := (firstContextPage_eq_some b p).2 ⟨c, cs, ps, h1, h2⟩
    by_cases hu : url = ""
    · (simp only [ConnectToBrowser, hp, isPortOpen, hd, hs, connectAttach, hpw, hb,
        connectResolvePage, hf, connectNavigate, hu]; simp [hu])
    · cases hg : w.goto p url timeout <;>
        (simp only [ConnectToBrowser, hp, isPortOpen, hd, hs, connectAttach, hpw, hb,
          connectResolvePage, hf, connectNavigate, hu, hg]; simp [hu])

/-- C7 (witness): on `reuseWorld` the first context holds pages 5 and 6;
page 5 is kept and returned after a successful navigation. -/
theorem ConnectToBrowser_page_resolution_witness :
    ProfileExists reuseWorld sampleManager "work" = true
    ∧ reuseWorld.connectOverCDP "http://127.0.0.1:9222" = .ok ⟨1, [⟨[5, 6]⟩, ⟨[7]⟩]⟩
    ∧ (ConnectToBrowser reuseWorld sampleManager "work" "https://example.com" false
        30000).cm.page = some 5
    ∧ (ConnectToBrowser reuseWorld sampleManager "work" "https://example.com" false
        30000).result = .ok 5 :=
  ⟨rfl, rfl,
    ((ConnectToBrowser_page_resolution reuseWorld sampleManager "work" "https://example.com"
      false 30000 4242 1 ⟨1, [⟨[5, 6]⟩, ⟨[7]⟩]⟩ rfl rfl rfl rfl rfl).2
        ⟨[5, 6]⟩ [⟨[7]⟩] 5 [6] rfl rfl).1,
    ((ConnectToBrowser_page_resolution reuseWorld sampleManager "work" "https://example.com"
      false 30000 4242 1 ⟨1, [⟨[5, 6]⟩, ⟨[7]⟩]⟩ rfl rfl rfl rfl rfl).2
        ⟨[5, 6]⟩ [⟨[7]⟩] 5 [6] rfl rfl).2.2.1 () rfl⟩

/-! ## Claims on SetupProfile -/

theorem killChildProcesses_no_start (w : World) (pid : Int) :
    (killChildProcesses w pid).filter isStart = [] := by
  unfold killChildProcesses
  split
  · rw [List.filter_append]
    have : ∀ cs : List Int, (cs.flatMap (fun c =>
        [Event.kill c, Event.print ("Killed child process: " ++ fmtInt c ++ "\n")])).filter
        isStart = [] := by
      intro cs
      induction cs with
      | nil => rfl
      | cons c cs ih => simp only [List.flatMap_cons, List.filter_append, ih]; rfl
    rw [this]; rfl
  · rfl

theorem CloseBrowser_no_start (w : World) (cm : ChromeManager) :
    (CloseBrowser w cm).2.filter isStart = [] := by
  obtain ⟨b, x, d, proc, pw, br, pg, pid⟩ := cm
  cases pg <;> cases br <;> cases pw <;> cases proc <;>
    by_cases hp : pid > 0 <;>
    simp [CloseBrowser, closePageStep, closeBrowserStep, stopPlaywrightStep, killProcessStep, hp,
      List.filter_append, killChildProcesses_no_start, isStart]

/-- C8 (counterexample): with a URL and the headless flag, `SetupProfile`
spawns the browser with `--headless=new` as the last argument; the URL is the
one before it. -/
theorem SetupProfile_url_not_last :
    Event.start "/opt/chrome" ["--remote-debugging-port=9222",
        "--user-data-dir=/profiles/work", "--no-first-run", "--no-default-browser-check",
        "https://example.com", "--headless=new"]
      ∈ (SetupProfile sampleWorld sampleManager "work" "https://example.com" "" true).trace
    ∧ (setupProfileArgs sampleWorld sampleManager "work" "https://example.com" true).tail.getLast?
        = some "--headless=new"
    ∧ (setupProfileArgs sampleWorld sampleManager "work" "https://example.com" true).tail.getLast?
        ≠ some "https://example.com" := by
  refine ⟨by decide, rfl, by decide⟩

/-- C8 (amended): when the port is free, `SetupProfile` spawns the browser
executable exactly once, with the arguments `--remote-debugging-port=<port>`,
`--user-data-dir=<BaseProfileDir/profileName>`, `--no-first-run`,
`--no-default-browser-check`, then the URL if and only if it is non-empty,
then `--headless=new` if and only if headless is set. -/
theorem SetupProfile_arguments (w : World) (cm : ChromeManager)
    (profileName url waitMessage : String) (headless : Bool)
    (h : w.dialOK ("127.0.0.1:" ++ fmtInt cm.DebugPort) = false) :
    (SetupProfile w cm profileName url waitMessage headless).trace.filter isStart =
      [Event.start cm.BrowserPath
        (["--remote-debugging-port=" ++ fmtInt cm.DebugPort,
          "--user-data-dir=" ++ w.pathJoin cm.BaseProfileDir profileName,
          "--no-first-run",
          "--no-default-browser-check"]
          ++ (if url = "" then [] else [url])
          ++ (if headless = true then ["--headless=new"] else []))] := by
  have hargs : setupProfileArgs w cm profileName url headless =
      cm.BrowserPath :: (["--remote-debugging-port=" ++ fmtInt cm.DebugPort,
          "--user-data-dir=" ++ w.pathJoin cm.BaseProfileDir profileName,
          "--no-first-run",
          "--no-default-browser-check"]
          ++ (if url = "" then [] else [url])
          ++ (if headless = true then ["--headless=new"] else [])) := by
    by_cases hu : url = "" <;> cases headless <;>
      simp [setupProfileArgs, GetProfilePath, hu]
  generalize (["--remote-debugging-port=" ++ fmtInt cm.DebugPort,
          "--user-data-dir=" ++ w.pathJoin cm.BaseProfileDir profileName,
          "--no-first-run",
          "--no-default-browser-check"]
          ++ (if url = "" then [] else [url])
          ++ (if headless = true then ["--headless=new"] else [])) = expected at hargs ⊢
  simp only [SetupProfile, isPortOpen, h, hargs, List.headD_cons, List.tail_cons]
  cases hs : w.startCmd cm.BrowserPath expected <;>
    simp [List.filter_append, CloseBrowser_no_start, isStart]

/-- C8 (witness): the port is free on the sample host. -/
theorem SetupProfile_arguments_witness :
    sampleWorld.dialOK ("127.0.0.1:" ++ fmtInt sampleManager.DebugPort) = false
    ∧ (SetupProfile sampleWorld sampleManager "work" "" "" true).trace.filter isStart =
      [Event.start "/opt/chrome" ["--remote-debugging-port=9222",
        "--user-data-dir=/profiles/work", "--no-first-run", "--no-default-browser-check",
        "--headless=new"]] :=
  ⟨rfl, SetupProfile_arguments sampleWorld sampleManager "work" "" "" true rfl⟩

/-! ## Claims on findBrowserPath -/

theorem brandSuffixOK_iff (base : String) : brandSuffixOK base = true ↔ EndsInBrand base := by
  have e1 : "brave" ++ ".exe" = "brave.exe" := by decide
  have e2 : "msedge" ++ ".exe" = "msedge.exe" := by decide
  have e3 : "chrome" ++ ".exe" = "chrome.exe" := by decide
  have e4 : "chromium" ++ ".exe" = "chromium.exe" := by decide
  unfold brandSuffixOK EndsInBrand
  simp only [List.mem_cons, List.mem_singleton, List.not_mem_nil, or_false, exists_eq_or_imp,
    exists_eq_left, e1, e2, e3, e4, Bool.or_eq_true]
  tauto

theorem promptLoop_sound (w : World) :
    ∀ (n : Nat) (input : List String), input.length ≤ n → ∀ p,
      (promptLoop w input).1 = .ok p →
        EndsInBrand (w.toLower (w.pathBase p)) ∧ (w.stat p).isSome = true ∧ p ≠ "" := by
  intro n
  induction n with
  | zero =>
    intro input hlen p h
    have : input = [] := List.length_eq_zero.mp (Nat.le_zero.mp hlen)
    subst this
    simp [promptLoop] at h
  | succ n ih =>
    intro input hlen p h
    cases input with
    | nil => simp [promptLoop] at h
    | cons line rest =>
      have hrest : rest.length ≤ n := by simpa using hlen
      unfold promptLoop at h
      simp only at h
      split at h
      · exact ih rest hrest p h
      · split at h
        · split at h
          · cases h
          · rename_i answer rest2
            split at h
            · exact ih rest2 (by simp at hrest; omega) p h
            · cases h
        · split at h
          · rename_i hne hst hb
            injection h with h
            subst h
            refine ⟨(brandSuffixOK_iff _).1 hb, ?_, hne⟩
            cases hs : w.stat (Trim (TrimSpace line) (Char.ofNat 34)) with
            | none => simp [hs] at hst
            | some k => rfl
          · exact ih rest hrest p h

/-- C9: in the interactive fallback (no candidate exists), a line whose
trimmed path is non-empty and exists on disk is accepted and returned when the
lower-cased base name ends in `brave`, `msedge`, `chrome` or `chromium`,
optionally followed by `.exe`; otherwise it is rejected and the loop goes on
with the remaining input. No path failing that test is ever returned. -/
theorem findBrowserPath_accepts_iff_brand (w : World) (line : String) (rest : List String)
    (hscan : (scanCandidates w (candidatePaths w)).1 = none)
    (hne : Trim (TrimSpace line) (Char.ofNat 34) ≠ "")
    (hex : (w.stat (Trim (TrimSpace line) (Char.ofNat 34))).isSome = true) :
    (EndsInBrand (w.toLower (w.pathBase (Trim (TrimSpace line) (Char.ofNat 34)))) →
      findBrowserPath w (line :: rest) =
        (.ok (Trim (TrimSpace line) (Char.ofNat 34)),
          [Event.print "Checking browser paths:\n"] ++ (scanCandidates w (candidatePaths w)).2
            ++ exampleHint w
            ++ [Event.print "Enter browser path: ",
                Event.print ("Browser path verified: "
                  ++ Trim (TrimSpace line) (Char.ofNat 34) ++ "\n")]))
    ∧ (¬ EndsInBrand (w.toLower (w.pathBase (Trim (TrimSpace line) (Char.ofNat 34)))) →
      findBrowserPath w (line :: rest) =
        after ([Event.print "Checking browser paths:\n"] ++ (scanCandidates w (candidatePaths w)).2
            ++ exampleHint w
            ++ [Event.print "Enter browser path: ",
                Event.print
                  "Path should point to Brave, Edge, Chrome, or Chromium executable. Please try again.\n"])
          (promptLoop w rest))
    ∧ (∀ input p, (findBrowserPath w input).1 = .ok p →
        EndsInBrand (w.toLower (w.pathBase p))) := by
  have hst : ¬ (w.stat (Trim (TrimSpace line) (Char.ofNat 34))).isNone = true := by
    cases hs : w.stat (Trim (TrimSpace line) (Char.ofNat 34)) with
    | none => simp [hs] at hex
    | some k => simp
  refine ⟨?_, ?_, ?_⟩
  · intro hb
    have hb2 := (brandSuffixOK_iff _).2 hb
    simp only [findBrowserPath, hscan]
    rw [promptLoop.eq_def w (line :: rest)]
    simp [hne, hst, hb2, after]
  · intro hb
    have hb2 : ¬ brandSuffixOK (w.toLower (w.pathBase (Trim (TrimSpace line) (Char.ofNat 34))))
        = true := fun h => hb ((brandSuffixOK_iff _).1 h)
    simp only [findBrowserPath, hscan]
    rw [promptLoop.eq_def w (line :: rest)]
    simp [hne, hst, hb2, after]
  · intro input p h
    simp only [findBrowserPath, hscan, after] at h
    exact (promptLoop_sound w input.length input (Nat.le_refl _) p h).1

/-- C9 (witness): on the sample host no candidate exists, `/opt/chrome`
exists and is accepted. -/
theorem findBrowserPath_accepts_iff_brand_witness :
    (scanCandidates sampleWorld (candidatePaths sampleWorld)).1 = none
    ∧ Trim (TrimSpace "  /opt/chrome  ") (Char.ofNat 34) = "/opt/chrome"
    ∧ (findBrowserPath sampleWorld ["  /opt/chrome  "]).1 = .ok "/opt/chrome" :=
  ⟨by decide, by decide,
    congrArg Prod.fst ((findBrowserPath_accepts_iff_brand sampleWorld "  /opt/chrome  " []
      (by decide) (by decide) (by decide)).1 ((brandSuffixOK_iff _).1 (by decide)))⟩

end ChromeManager
